import Mathlib

/-!
Shallow embedding of `cuddlespeak/cuddlespeak.go` (package main of the
cuddlespeak tool): the command construction and dispatch layer.

Modelling choices:
* Positional arguments are the list `flag.Args()`; `flag.Arg i` is `flagArg`.
  The source reads the command name from `flag.Arg(1)` and the command's own
  arguments from `flag.Arg(2)` onward; the embedding reproduces those indices.
* `fmt.Fscanf` with `"%d"`/`"%f"` is modelled by `fscanInt` / `fscanFloat`;
  a failed scan returns `none` and the scanned Go variable keeps its zero
  value (`Option.getD _ 0`), exactly as in the source.
* Go `uint16(x)` conversion of an `int` is `uint16ofInt` (reduction mod 2^16).
* `os.Exit` (reached via `fatalUsage` and `log.Fatal`) terminates the process
  without running deferred calls; a normal return from `main` runs
  `defer port.Close()` and the process exits with status 0.  `ExitKind`
  records which of the two happened and `ExecResult.portClosed` whether the
  deferred close ran.
* `serial.Open` is assumed to succeed (an open failure aborts before any of
  the modelled logic runs); the `-port` and `-debug` flags only choose the
  endpoint and enable logging, so they are not modelled.
* The `msgtype.Write*` encoder calls are external collaborators: the model
  records the structured message handed to them (`Msg`) and the read
  deadline applied afterwards (`Response`), not the wire bytes.
-/

/-- Actuator addresses: `msgtype.ADDR_RIBS`, `ADDR_PURR`, `ADDR_SPINE`,
`ADDR_HEAD_YAW`, `ADDR_HEAD_PITCH`. -/
inductive Addr where
  | ribs
  | purr
  | spine
  | headYaw
  | headPitch
deriving DecidableEq, Repr

/-- `msgtype.Setpoint`: fields `Duration` and `Setpoint` are Go `uint16`
values, stored as naturals (always < 2^16 by construction). -/
structure Setpoint where
  duration : Nat
  setpoint : Nat
deriving DecidableEq, Repr

/-- The structured message handed to the encoder: one case per
`msgtype.Write*` call in `runcmd`.  PID coefficients are modelled as
rationals (the source stores `float32`). -/
inductive Msg where
  | setPID (kp ki kd : ℚ)
  | setpoint (delay lp : Nat) (sps : List Setpoint)
  | ping
  | runTests
  | requestPosition
deriving DecidableEq, Repr

/-- Go `time.Second` in nanoseconds. -/
def timeSecond : Nat := 1000000000

/-- Go `time.Minute` in nanoseconds. -/
def timeMinute : Nat := 60 * timeSecond

/-- Whether a read deadline is applied after the write: `noWait` when the
source only writes, `await ns` when it sets a read deadline of `ns`
nanoseconds and copies the response to stdout. -/
inductive Response where
  | noWait
  | await (ns : Nat)
deriving DecidableEq, Repr

/-- A dispatched command: target address, structured message, response
policy applied after the write. -/
structure Dispatch where
  addr : Addr
  msg : Msg
  response : Response
deriving DecidableEq, Repr

/-- `flag.Arg(i)`: the i-th positional argument, `""` when out of range. -/
def flagArg (args : List String) (i : Nat) : String :=
  args.getD i ""

/-- Value of a run of decimal digits. -/
def digitsVal (l : List Char) : Nat :=
  l.foldl (fun a c => 10 * a + (c.toNat - 48)) 0

/-- Model of `fmt.Fscanf(..., "%d", &x)` for a Go `int` (64-bit): an
optional sign followed by a run of decimal digits, value within the int64
range.  `none` means the scan failed (no digits, or out of range) and the
scanned variable keeps its zero value. -/
def fscanInt (s : String) : Option Int :=
  let cs := s.toList
  let neg := cs.head? = some '-'
  let cs2 := if neg ∨ cs.head? = some '+' then cs.drop 1 else cs
  let ds := cs2.takeWhile Char.isDigit
  if ds.isEmpty then none
  else
    let v : Int := (if neg then -1 else 1) * (digitsVal ds : Int)
    if v < -(2 ^ 63) ∨ (2 ^ 63 : Int) ≤ v then none else some v

/-- Model of `fmt.Fscanf(..., "%f", &x)` restricted to plain decimal forms
(optional sign, integer digits, optional fraction): exponent notation is
not modelled, no claim depends on it.  `none` means the scan failed and the
scanned variable keeps its zero value. -/
def fscanFloat (s : String) : Option ℚ :=
  let cs := s.toList
  let neg := cs.head? = some '-'
  let cs2 := if neg ∨ cs.head? = some '+' then cs.drop 1 else cs
  let ip := cs2.takeWhile Char.isDigit
  let rest := cs2.dropWhile Char.isDigit
  let sgn : ℚ := if neg then -1 else 1
  match rest with
  | '.' :: rest2 =>
    let fp := rest2.takeWhile Char.isDigit
    if ip.isEmpty ∧ fp.isEmpty then none
    else some (sgn * ((digitsVal ip : ℚ) + (digitsVal fp : ℚ) / (10 ^ fp.length)))
  | _ =>
    if ip.isEmpty then none
    else some (sgn * (digitsVal ip : ℚ))

/-- Go `uint16(x)` conversion of a Go `int`: reduction modulo 2^16
(two's-complement truncation). -/
def uint16ofInt (x : Int) : Nat :=
  (x % 65536).toNat

/-- One `msgtype.Setpoint` entry as the loop body of `runcmd` builds it:
both tokens scanned with `"%d"` (zero on failure) and converted with
`uint16(...)`. -/
def mkSetpoint (d s : String) : Setpoint :=
  ⟨uint16ofInt ((fscanInt d).getD 0), uint16ofInt ((fscanInt s).getD 0)⟩

/-- The setpoint-pair loop of `runcmd` (`for i := 4; i < flag.NArg(); i += 2`),
applied to the tokens from `flag.Arg(4)` on.  The non-negativity check in
the loop body reads `delayInt < 0 || loopInt < 0`, exactly as in the
source — it tests the already-validated delay/loop values, not the
duration/setpoint just scanned.  `none` models the `log.Fatal` exit. -/
def buildSetpoints (delayInt loopInt : Int) : List String → Option (List Setpoint)
  | d :: s :: rest =>
    if delayInt < 0 ∨ loopInt < 0 then none
    else (buildSetpoints delayInt loopInt rest).map (fun tail => mkSetpoint d s :: tail)
  | [] => some []
  | [_] => some []

/-- The value `buildSetpoints` produces when the (vacuous) loop check never
fires: consecutive token pairs converted in input order. -/
def pairList : List String → List Setpoint
  | d :: s :: rest => mkSetpoint d s :: pairList rest
  | [] => []
  | [_] => []

/-- Outcome of `runcmd`: `usageExit` models `fatalUsage()` (usage text then
`os.Exit(1)`), `fatalExit` models `log.Fatal(...)` (message then
`os.Exit(1)`), `ok d` models a completed dispatch and normal return. -/
inductive RunOutcome where
  | usageExit
  | fatalExit
  | ok (d : Dispatch)
deriving DecidableEq, Repr

/-- `func runcmd(conn net.Conn, addr uint8)`: switch on `flag.Arg(1)`. -/
def runcmd (args : List String) (addr : Addr) : RunOutcome :=
  let n := args.length
  let cmd := flagArg args 1
  if cmd = "setpid" then
    if n < 5 then .usageExit
    else
      let kp := (fscanFloat (flagArg args 2)).getD 0
      let ki := (fscanFloat (flagArg args 3)).getD 0
      let kd := (fscanFloat (flagArg args 4)).getD 0
      .ok ⟨addr, .setPID kp ki kd, .noWait⟩
  else if cmd = "setpoint" then
    if n < 6 then .usageExit
    else if n % 2 ≠ 0 then .fatalExit
    else
      let delayInt := (fscanInt (flagArg args 2)).getD 0
      let loopInt := (fscanInt (flagArg args 3)).getD 0
      if delayInt < 0 ∨ loopInt < 0 then .fatalExit
      else
        match buildSetpoints delayInt loopInt (args.drop 4) with
        | none => .fatalExit
        | some sps =>
          .ok ⟨addr, .setpoint (uint16ofInt delayInt) (uint16ofInt loopInt) sps, .noWait⟩
  else if cmd = "ping" then .ok ⟨addr, .ping, .await timeSecond⟩
  else if cmd = "test" then .ok ⟨addr, .runTests, .await (5 * timeMinute)⟩
  else if cmd = "value" then .ok ⟨addr, .requestPosition, .await timeSecond⟩
  else .usageExit

/-- The boolean actuator-selector flags (plus `-help`). -/
structure Flags where
  help : Bool
  ribs : Bool
  purr : Bool
  spine : Bool
  headx : Bool
  heady : Bool
deriving DecidableEq, Repr

/-- The selector dispatch `switch true { case *ribs: ... }`: first match in
source order ribs, purr, spine, headx, heady; `none` when no selector flag
is set (the switch falls through and `main` returns). -/
def selectAddr (fl : Flags) : Option Addr :=
  if fl.ribs then some .ribs
  else if fl.purr then some .purr
  else if fl.spine then some .spine
  else if fl.headx then some .headYaw
  else if fl.heady then some .headPitch
  else none

/-- How the process terminated: `exited c` is `os.Exit(c)` (deferred calls
do not run), `returned` is a normal return from `main` (deferred calls run,
the process then exits with status 0). -/
inductive ExitKind where
  | exited (code : Nat)
  | returned
deriving DecidableEq, Repr

/-- Observable result of one invocation: how the process exited, whether
the serial port was opened, whether the deferred `port.Close()` ran, and
the dispatched command if any. -/
structure ExecResult where
  exit : ExitKind
  portOpened : Bool
  portClosed : Bool
  dispatched : Option Dispatch
deriving DecidableEq, Repr

/-- `func main()`, under the assumption that `serial.Open` succeeds.  The
`flag.NArg() < 2` check and the `-help` check precede the open; the
deferred `port.Close()` runs only on the paths where `main` returns
normally, because `fatalUsage` and `log.Fatal` exit via `os.Exit`. -/
def cuddlespeakMain (fl : Flags) (args : List String) : ExecResult :=
  if args.length < 2 then ⟨.exited 1, false, false, none⟩
  else if fl.help then ⟨.exited 0, false, false, none⟩
  else
    match selectAddr fl with
    | none => ⟨.returned, true, true, none⟩
    | some addr =>
      match runcmd args addr with
      | .usageExit => ⟨.exited 1, true, false, none⟩
      | .fatalExit => ⟨.exited 1, true, false, none⟩
      | .ok d => ⟨.returned, true, true, some d⟩

/-- The response policy as a function of the message variant alone
(the dispatcher table of §4.5). -/
def variantPolicy : Msg → Response
  | .setPID _ _ _ => .noWait
  | .setpoint _ _ _ => .noWait
  | .ping => .await timeSecond
  | .runTests => .await (5 * timeMinute)
  | .requestPosition => .await timeSecond

/-! ### Helper lemmas -/

/-- When delay and loop are non-negative, the loop check never fires and
`buildSetpoints` returns all pairs in input order. -/
theorem buildSetpoints_nonneg (delayInt loopInt : Int)
    (h1 : 0 ≤ delayInt) (h2 : 0 ≤ loopInt) :
    ∀ toks : List String,
      buildSetpoints delayInt loopInt toks = some (pairList toks)
  | [] => rfl
  | [_] => rfl
  | d :: s :: rest => by
    have hno : ¬(delayInt < 0 ∨ loopInt < 0) := by omega
    simp only [buildSetpoints, if_neg hno,
      buildSetpoints_nonneg delayInt loopInt h1 h2 rest, Option.map_some', pairList]

theorem pairList_length : ∀ toks : List String,
    (pairList toks).length = toks.length / 2
  | [] => rfl
  | [_] => by simp [pairList]
  | _ :: _ :: rest => by
    simp only [pairList, List.length_cons, pairList_length rest]
    omega

theorem pairList_getD : ∀ (toks : List String) (j : Nat),
    2 * j + 1 < toks.length →
    (pairList toks).getD j ⟨0, 0⟩ =
      mkSetpoint (toks.getD (2 * j) "") (toks.getD (2 * j + 1) "")
  | _ :: _ :: _, 0, _ => rfl
  | d :: s :: rest, j + 1, h => by
    have hrec := pairList_getD rest j (by simp only [List.length_cons] at h; omega)
    have e1 : 2 * (j + 1) = 2 * j + 1 + 1 := by omega
    have e2 : 2 * (j + 1) + 1 = 2 * j + 1 + 1 + 1 := by omega
    simp only [pairList, e1, e2, List.getD_cons_succ, hrec]
  | [], j, h => by simp at h
  | [_], j, h => by exfalso; simp only [List.length_singleton] at h; omega

theorem getD_drop (l : List String) (n m : Nat) :
    (l.drop n).getD m "" = l.getD (n + m) "" := by
  simp [List.getD_eq_getElem?_getD, List.getElem?_drop]

theorem uint16ofInt_of_nonneg (k : Int) (h : 0 ≤ k) :
    uint16ofInt k = k.toNat % 65536 := by
  unfold uint16ofInt
  omega

/-- Every outcome of `runcmd` is a usage exit, a fatal exit, or a dispatch
to the given address whose response policy is `variantPolicy` of its
message. -/
theorem runcmd_shape (args : List String) (a : Addr) :
    runcmd args a = .usageExit ∨ runcmd args a = .fatalExit ∨
      ∃ m : Msg, runcmd args a = .ok ⟨a, m, variantPolicy m⟩ := by
  simp only [runcmd]
  repeat' split
  all_goals
    first
      | exact Or.inl rfl
      | exact Or.inr (Or.inl rfl)
      | exact Or.inr (Or.inr ⟨_, rfl⟩)

theorem runcmd_ok_addr (args : List String) (a : Addr) (d : Dispatch)
    (h : runcmd args a = .ok d) : d.addr = a := by
  rcases runcmd_shape args a with hs | hs | ⟨m, hs⟩
  · rw [h] at hs; simp at hs
  · rw [h] at hs; simp at hs
  · rw [h] at hs
    injection hs with h2
    rw [h2]

/-- The setpid success branch of `runcmd`. -/
theorem runcmd_setpid_ok (args : List String) (a : Addr)
    (hcmd : flagArg args 1 = "setpid") (h5 : 5 ≤ args.length) :
    runcmd args a = .ok ⟨a,
      .setPID ((fscanFloat (flagArg args 2)).getD 0)
        ((fscanFloat (flagArg args 3)).getD 0)
        ((fscanFloat (flagArg args 4)).getD 0), .noWait⟩ := by
  simp [runcmd, hcmd, Nat.not_lt.mpr h5]

/-- The setpoint success branch of `runcmd`. -/
theorem runcmd_setpoint_ok (args : List String) (a : Addr)
    (hcmd : flagArg args 1 = "setpoint")
    (h6 : 6 ≤ args.length) (heven : args.length % 2 = 0)
    (hd : 0 ≤ (fscanInt (flagArg args 2)).getD 0)
    (hl : 0 ≤ (fscanInt (flagArg args 3)).getD 0) :
    runcmd args a = .ok ⟨a,
      .setpoint (uint16ofInt ((fscanInt (flagArg args 2)).getD 0))
        (uint16ofInt ((fscanInt (flagArg args 3)).getD 0))
        (pairList (args.drop 4)), .noWait⟩ := by
  have h1 : ¬ args.length < 6 := Nat.not_lt.mpr h6
  have h2 : ¬ ((fscanInt (flagArg args 2)).getD 0 < 0 ∨
      (fscanInt (flagArg args 3)).getD 0 < 0) := by
    push_neg
    exact ⟨hd, hl⟩
  simp [runcmd, hcmd, h1, heven, h2, buildSetpoints_nonneg _ _ hd hl]

/-! ### Claims -/

/-- C1 (amended): for the setpoint command, the literal loop token "forever"
fails the integer scan, so the loop variable keeps its zero value and the
dispatched command carries loop = 0 — the same wire value as the finite
count token "0", not a sentinel distinct from every finite unsigned 16-bit
count.  In particular (see the witness) the invocation with setpoint
arguments 0 forever 1000 26075 1000 0 yields delay = 0, loop = 0 and
entries [(1000, 26075), (1000, 0)]. -/
theorem C1_forever_loop_zero (args : List String) (a : Addr)
    (hcmd : flagArg args 1 = "setpoint") (hfor : flagArg args 3 = "forever")
    (h6 : 6 ≤ args.length) (heven : args.length % 2 = 0)
    (hd : 0 ≤ (fscanInt (flagArg args 2)).getD 0) :
    runcmd args a = .ok ⟨a,
      .setpoint (uint16ofInt ((fscanInt (flagArg args 2)).getD 0)) 0
        (pairList (args.drop 4)), .noWait⟩ := by
  have h0 : (fscanInt (flagArg args 3)).getD 0 = 0 := by rw [hfor]; decide
  have h := runcmd_setpoint_ok args a hcmd h6 heven hd (by rw [h0])
  rw [h0, show uint16ofInt 0 = 0 from by decide] at h
  exact h

/-- C1 counterexample: the loop tokens "forever" and "0" produce identical
commands (both loop = 0), so "forever" is not mapped to a sentinel value
distinct from every finite unsigned 16-bit count. -/
theorem C1_counterexample :
    runcmd ["cuddlespeak", "setpoint", "0", "forever", "1000", "26075", "1000", "0"] .ribs =
        .ok ⟨.ribs, .setpoint 0 0 [⟨1000, 26075⟩, ⟨1000, 0⟩], .noWait⟩ ∧
      runcmd ["cuddlespeak", "setpoint", "0", "0", "1000", "26075", "1000", "0"] .ribs =
        .ok ⟨.ribs, .setpoint 0 0 [⟨1000, 26075⟩, ⟨1000, 0⟩], .noWait⟩ := by
  constructor <;> decide

/-- C1 witness: the amended statement at the documented example invocation
setpoint 0 forever 1000 26075 1000 0. -/
theorem C1_witness :
    runcmd ["cuddlespeak", "setpoint", "0", "forever", "1000", "26075", "1000", "0"] .ribs =
      .ok ⟨.ribs, .setpoint 0 0 [⟨1000, 26075⟩, ⟨1000, 0⟩], .noWait⟩ := by
  have h := C1_forever_loop_zero
    ["cuddlespeak", "setpoint", "0", "forever", "1000", "26075", "1000", "0"] .ribs
    rfl rfl (by decide) (by decide) (by decide)
  exact h.trans (by decide)

/-- C2: the setpoint invocation with the negative duration token "-5" is
dispatched, not rejected: the in-loop check reads delayInt/loopInt instead
of the duration/setpoint values just scanned, so -5 silently wraps to the
uint16 value 65531.  The code contradicts its own error message "duration
and setpoint must be positive". -/
theorem C2_negative_duration_dispatched :
    runcmd ["cuddlespeak", "setpoint", "0", "1", "-5", "100"] .ribs =
      .ok ⟨.ribs, .setpoint 0 1 [⟨65531, 100⟩], .noWait⟩ := by
  decide

/-- C7 (amended): setpid fails with a usage exit when fewer than 3
arguments follow the command name, but argument counts greater than 3 are
accepted: only the first three following tokens are read and any extras are
silently ignored. -/
theorem C7_setpid_arity (args : List String) (a : Addr)
    (hcmd : flagArg args 1 = "setpid") :
    (args.length < 5 → runcmd args a = .usageExit) ∧
      (5 ≤ args.length → runcmd args a =
        .ok ⟨a, .setPID ((fscanFloat (flagArg args 2)).getD 0)
          ((fscanFloat (flagArg args 3)).getD 0)
          ((fscanFloat (flagArg args 4)).getD 0), .noWait⟩) := by
  constructor
  · intro h
    simp [runcmd, hcmd, h]
  · exact runcmd_setpid_ok args a hcmd

/-- C7 counterexample: a setpid invocation with 4 following arguments is
validated and dispatched (the fourth token is ignored), so it is not true
that more than 3 following arguments fail validation. -/
theorem C7_counterexample :
    runcmd ["cuddlespeak", "setpid", "1.0", "2.0", "3.0", "4.0"] .ribs =
      .ok ⟨.ribs, .setPID ((fscanFloat "1.0").getD 0) ((fscanFloat "2.0").getD 0)
        ((fscanFloat "3.0").getD 0), .noWait⟩ :=
  runcmd_setpid_ok _ _ rfl (by decide)

/-- C7 witness: the amended statement at the documented example invocation
setpid 40.4 1.0 -1.0. -/
theorem C7_witness :
    runcmd ["cuddlespeak", "setpid", "40.4", "1.0", "-1.0"] .ribs =
      .ok ⟨.ribs, .setPID ((fscanFloat "40.4").getD 0) ((fscanFloat "1.0").getD 0)
        ((fscanFloat "-1.0").getD 0), .noWait⟩ :=
  (C7_setpid_arity ["cuddlespeak", "setpid", "40.4", "1.0", "-1.0"] .ribs rfl).2 (by decide)

/-- C8: for the setpid command, a following argument whose text does not
scan as a float leaves the corresponding PID coefficient at its zero value,
and the command is still constructed and dispatched (no parse error is
propagated). -/
theorem C8_malformed_float_zero (args : List String) (a : Addr) (i : Nat)
    (hcmd : flagArg args 1 = "setpid") (h5 : 5 ≤ args.length)
    (hi : 2 ≤ i ∧ i ≤ 4) (hbad : fscanFloat (flagArg args i) = none) :
    ∃ kp ki kd : ℚ, runcmd args a = .ok ⟨a, .setPID kp ki kd, .noWait⟩ ∧
      (i = 2 → kp = 0) ∧ (i = 3 → ki = 0) ∧ (i = 4 → kd = 0) := by
  refine ⟨_, _, _, runcmd_setpid_ok args a hcmd h5, ?_, ?_, ?_⟩ <;>
    intro hieq <;> subst hieq <;> simp [hbad]

/-- C8 witness: setpid with the malformed first coefficient token "oops"
still dispatches, with kp = 0. -/
theorem C8_witness :
    ∃ kp ki kd : ℚ,
      runcmd ["cuddlespeak", "setpid", "oops", "1.0", "2.0"] .ribs =
        .ok ⟨.ribs, .setPID kp ki kd, .noWait⟩ ∧
        (2 = 2 → kp = 0) ∧ (2 = 3 → ki = 0) ∧ (2 = 4 → kd = 0) :=
  C8_malformed_float_zero ["cuddlespeak", "setpid", "oops", "1.0", "2.0"] .ribs 2
    rfl (by decide) (by decide) (by decide)

/-- C5: for the setpoint command (the command name is the token at index 1,
its raw arguments are the tokens from index 2 on, so the raw argument count
after the command name is args.length - 2): any odd count (odd args.length)
or count below 4 (args.length < 6) fails validation with a usage or fatal
exit, and any even count ≥ 4 whose tokens all scan as non-negative integers
is validated into exactly (args.length - 4) / 2 = (count - 2) / 2 entries
taken pairwise from the input in order. -/
theorem C5_setpoint_arity (args : List String) (a : Addr)
    (hcmd : flagArg args 1 = "setpoint") :
    ((args.length % 2 = 1 ∨ args.length < 6) →
      runcmd args a = .usageExit ∨ runcmd args a = .fatalExit) ∧
    (args.length % 2 = 0 → 6 ≤ args.length →
      (∀ i, 2 ≤ i → i < args.length →
        ∃ k : Int, fscanInt (flagArg args i) = some k ∧ 0 ≤ k) →
      ∃ sps : List Setpoint,
        runcmd args a = .ok ⟨a,
          .setpoint (uint16ofInt ((fscanInt (flagArg args 2)).getD 0))
            (uint16ofInt ((fscanInt (flagArg args 3)).getD 0)) sps, .noWait⟩ ∧
        sps.length = (args.length - 4) / 2 ∧
        ∀ j, j < sps.length →
          sps.getD j ⟨0, 0⟩ =
            mkSetpoint (flagArg args (4 + 2 * j)) (flagArg args (5 + 2 * j))) := by
  constructor
  · intro h
    by_cases h5 : args.length < 6
    · exact Or.inl (by simp [runcmd, hcmd, h5])
    · have hodd : args.length % 2 = 1 := by
        rcases h with h | h
        · exact h
        · exact absurd h h5
      exact Or.inr (by simp [runcmd, hcmd, h5, hodd])
  · intro heven h6 hof
    have hd : 0 ≤ (fscanInt (flagArg args 2)).getD 0 := by
      obtain ⟨k, hk, hk0⟩ := hof 2 (by omega) (by omega)
      rw [hk]
      exact hk0
    have hl : 0 ≤ (fscanInt (flagArg args 3)).getD 0 := by
      obtain ⟨k, hk, hk0⟩ := hof 3 (by omega) (by omega)
      rw [hk]
      exact hk0
    refine ⟨pairList (args.drop 4),
      runcmd_setpoint_ok args a hcmd h6 heven hd hl, ?_, ?_⟩
    · rw [pairList_length, List.length_drop]
    · intro j hj
      rw [pairList_length, List.length_drop] at hj
      have hb : 2 * j + 1 < (args.drop 4).length := by
        rw [List.length_drop]
        omega
      rw [pairList_getD _ _ hb, getD_drop, getD_drop,
        show 4 + (2 * j + 1) = 5 + 2 * j from by omega]
      rfl

/-- C5 witness: the success half of the arity statement at the concrete
invocation setpoint 5 2 10 20 (total count 6, one pair). -/
theorem C5_witness :
    ∃ sps : List Setpoint,
      runcmd ["cuddlespeak", "setpoint", "5", "2", "10", "20"] .purr =
        .ok ⟨.purr,
          .setpoint
            (uint16ofInt ((fscanInt
              (flagArg ["cuddlespeak", "setpoint", "5", "2", "10", "20"] 2)).getD 0))
            (uint16ofInt ((fscanInt
              (flagArg ["cuddlespeak", "setpoint", "5", "2", "10", "20"] 3)).getD 0))
            sps, .noWait⟩ ∧
      sps.length = ((["cuddlespeak", "setpoint", "5", "2", "10", "20"] : List String).length - 4) / 2 ∧
      ∀ j, j < sps.length →
        sps.getD j ⟨0, 0⟩ =
          mkSetpoint (flagArg ["cuddlespeak", "setpoint", "5", "2", "10", "20"] (4 + 2 * j))
            (flagArg ["cuddlespeak", "setpoint", "5", "2", "10", "20"] (5 + 2 * j)) :=
  (C5_setpoint_arity ["cuddlespeak", "setpoint", "5", "2", "10", "20"] .purr rfl).2
    (by decide) (by decide)
    (by
      intro i h2 hi
      have hi6 : i < 6 := by simpa using hi
      interval_cases i
      · exact ⟨5, by decide, by decide⟩
      · exact ⟨2, by decide, by decide⟩
      · exact ⟨10, by decide, by decide⟩
      · exact ⟨20, by decide, by decide⟩)

/-- C9: for the setpoint command, non-negative integer tokens undergo no
upper range check: validation succeeds and every unsigned 16-bit field
(delay, loop, each duration and setpoint) is the scanned value reduced
modulo 2^16, so a token value exceeding 65535 wraps instead of being
rejected as out of range. -/
theorem C9_overflow_wraps (args : List String) (a : Addr)
    (hcmd : flagArg args 1 = "setpoint")
    (heven : args.length % 2 = 0) (h6 : 6 ≤ args.length)
    (hof : ∀ i, 2 ≤ i → i < args.length →
      ∃ k : Int, fscanInt (flagArg args i) = some k ∧ 0 ≤ k) :
    ∃ sps : List Setpoint,
      runcmd args a = .ok ⟨a,
        .setpoint (((fscanInt (flagArg args 2)).getD 0).toNat % 65536)
          (((fscanInt (flagArg args 3)).getD 0).toNat % 65536) sps, .noWait⟩ ∧
      ∀ j, j < sps.length →
        sps.getD j ⟨0, 0⟩ =
          ⟨((fscanInt (flagArg args (4 + 2 * j))).getD 0).toNat % 65536,
            ((fscanInt (flagArg args (5 + 2 * j))).getD 0).toNat % 65536⟩ := by
  have hd : 0 ≤ (fscanInt (flagArg args 2)).getD 0 := by
    obtain ⟨k, hk, hk0⟩ := hof 2 (by omega) (by omega)
    rw [hk]
    exact hk0
  have hl : 0 ≤ (fscanInt (flagArg args 3)).getD 0 := by
    obtain ⟨k, hk, hk0⟩ := hof 3 (by omega) (by omega)
    rw [hk]
    exact hk0
  refine ⟨pairList (args.drop 4), ?_, ?_⟩
  · have h := runcmd_setpoint_ok args a hcmd h6 heven hd hl
    rwa [uint16ofInt_of_nonneg _ hd, uint16ofInt_of_nonneg _ hl] at h
  · intro j hj
    rw [pairList_length, List.length_drop] at hj
    have hb : 2 * j + 1 < (args.drop 4).length := by
      rw [List.length_drop]
      omega
    rw [pairList_getD _ _ hb, getD_drop, getD_drop,
      show 4 + (2 * j + 1) = 5 + 2 * j from by omega]
    obtain ⟨k1, hk1, hk10⟩ := hof (4 + 2 * j) (by omega) (by omega)
    obtain ⟨k2, hk2, hk20⟩ := hof (5 + 2 * j) (by omega) (by omega)
    show mkSetpoint (flagArg args (4 + 2 * j)) (flagArg args (5 + 2 * j)) = _
    rw [mkSetpoint, hk1, hk2]
    simp only [Option.getD_some]
    rw [uint16ofInt_of_nonneg _ hk10, uint16ofInt_of_nonneg _ hk20]

/-- C9 witness: setpoint 65536 70000 100000 2 is dispatched with
delay = 65536 mod 2^16 = 0, loop = 70000 mod 2^16 = 4464, and the duration
100000 wrapped likewise. -/
theorem C9_witness :
    ∃ sps : List Setpoint,
      runcmd ["cuddlespeak", "setpoint", "65536", "70000", "100000", "2"] .spine =
        .ok ⟨.spine, .setpoint 0 4464 sps, .noWait⟩ ∧
      ∀ j, j < sps.length →
        sps.getD j ⟨0, 0⟩ =
          ⟨((fscanInt (flagArg ["cuddlespeak", "setpoint", "65536", "70000", "100000", "2"]
              (4 + 2 * j))).getD 0).toNat % 65536,
            ((fscanInt (flagArg ["cuddlespeak", "setpoint", "65536", "70000", "100000", "2"]
              (5 + 2 * j))).getD 0).toNat % 65536⟩ :=
  C9_overflow_wraps ["cuddlespeak", "setpoint", "65536", "70000", "100000", "2"] .spine
    rfl (by decide) (by decide)
    (by
      intro i h2 hi
      have hi6 : i < 6 := by simpa using hi
      interval_cases i
      · exact ⟨65536, by decide, by decide⟩
      · exact ⟨70000, by decide, by decide⟩
      · exact ⟨100000, by decide, by decide⟩
      · exact ⟨2, by decide, by decide⟩)

/-- C6: the response policy is a fixed function of the command variant: any
dispatched command carries exactly `variantPolicy` of its message — ping and
value (requestPosition) await with a 1-second deadline, test (runTests)
with a 5-minute deadline, setpid and setpoint with no awaited response —
and the mapping does not depend on the rest of the invocation. -/
theorem C6_response_policy (args : List String) (a : Addr) (d : Dispatch)
    (h : runcmd args a = .ok d) :
    d.response = variantPolicy d.msg ∧
      variantPolicy .ping = .await timeSecond ∧
      variantPolicy .requestPosition = .await timeSecond ∧
      variantPolicy .runTests = .await (5 * timeMinute) ∧
      (∀ kp ki kd : ℚ, variantPolicy (.setPID kp ki kd) = .noWait) ∧
      (∀ dl lp sps, variantPolicy (.setpoint dl lp sps) = .noWait) := by
  refine ⟨?_, rfl, rfl, rfl, fun _ _ _ => rfl, fun _ _ _ => rfl⟩
  rcases runcmd_shape args a with hs | hs | ⟨m, hs⟩
  · rw [h] at hs
    simp at hs
  · rw [h] at hs
    simp at hs
  · rw [h] at hs
    injection hs with h2
    rw [h2]

/-- C6 witness: the policy statement at a concrete ping invocation. -/
theorem C6_witness :
    (⟨.ribs, .ping, .await timeSecond⟩ : Dispatch).response =
      variantPolicy (⟨.ribs, .ping, .await timeSecond⟩ : Dispatch).msg :=
  (C6_response_policy ["cuddlespeak", "ping"] .ribs ⟨.ribs, .ping, .await timeSecond⟩
    (by decide)).1

/-- C3 (amended): the deferred `port.Close()` runs exactly on the exit paths
where `main` returns normally (a completed dispatch, or no selector flag
set); every exit through `os.Exit` — usage errors after the port was opened
included — terminates the process without running the deferred close. -/
theorem C3_close_on_return_only (fl : Flags) (args : List String) :
    (cuddlespeakMain fl args).portClosed = true ↔
      (cuddlespeakMain fl args).portOpened = true ∧
        (cuddlespeakMain fl args).exit = .returned := by
  simp only [cuddlespeakMain]
  repeat' split
  all_goals simp

/-- C3 counterexample: with the ribs selector and an unknown command, the
port is opened, the process exits with status 1 through `fatalUsage`
(`os.Exit(1)`), and the deferred close never runs — an exit path after the
transport was opened on which the transport is not closed. -/
theorem C3_counterexample :
    (cuddlespeakMain ⟨false, true, false, false, false, false⟩ ["cuddlespeak", "bogus"]).portOpened
        = true ∧
      (cuddlespeakMain ⟨false, true, false, false, false, false⟩ ["cuddlespeak", "bogus"]).exit
        = .exited 1 ∧
      (cuddlespeakMain ⟨false, true, false, false, false, false⟩ ["cuddlespeak", "bogus"]).portClosed
        = false := by
  refine ⟨by decide, by decide, by decide⟩

/-- C3 witness: the amended statement at a concrete successful invocation. -/
theorem C3_witness :
    (cuddlespeakMain ⟨false, true, false, false, false, false⟩ ["cuddlespeak", "ping"]).portClosed
        = true ↔
      (cuddlespeakMain ⟨false, true, false, false, false, false⟩ ["cuddlespeak", "ping"]).portOpened
          = true ∧
        (cuddlespeakMain ⟨false, true, false, false, false, false⟩ ["cuddlespeak", "ping"]).exit
          = .returned :=
  C3_close_on_return_only ⟨false, true, false, false, false, false⟩ ["cuddlespeak", "ping"]

/-- C4 (amended): with no selector flag set the switch falls through: no
command is dispatched and `main` returns normally (process exit status 0) —
not a usage error with non-zero exit; with at least one selector the first
matching flag in the fixed order ribs, purr, spine, headx (head yaw),
heady (head pitch) chooses the address, and every dispatched command goes
to that address. -/
theorem C4_selector_priority (fl : Flags) (args : List String)
    (h2 : 2 ≤ args.length) (hh : fl.help = false) :
    (selectAddr fl = none →
      cuddlespeakMain fl args = ⟨.returned, true, true, none⟩) ∧
    (∀ d : Dispatch, (cuddlespeakMain fl args).dispatched = some d →
      selectAddr fl = some d.addr) ∧
    (fl.ribs = true → selectAddr fl = some .ribs) ∧
    (fl.ribs = false → fl.purr = true → selectAddr fl = some .purr) ∧
    (fl.ribs = false → fl.purr = false → fl.spine = true →
      selectAddr fl = some .spine) ∧
    (fl.ribs = false → fl.purr = false → fl.spine = false → fl.headx = true →
      selectAddr fl = some .headYaw) ∧
    (fl.ribs = false → fl.purr = false → fl.spine = false → fl.headx = false →
      fl.heady = true → selectAddr fl = some .headPitch) := by
  have hn : ¬ args.length < 2 := Nat.not_lt.mpr h2
  refine ⟨?_, ?_, ?_, ?_, ?_, ?_, ?_⟩
  · intro hsel
    simp [cuddlespeakMain, hn, hh, hsel]
  · intro d hd
    rcases hsel : selectAddr fl with _ | addr
    · simp [cuddlespeakMain, hn, hh, hsel] at hd
    · rcases hrun : runcmd args addr with _ | _ | d2
      · simp [cuddlespeakMain, hn, hh, hsel, hrun] at hd
      · simp [cuddlespeakMain, hn, hh, hsel, hrun] at hd
      · simp [cuddlespeakMain, hn, hh, hsel, hrun] at hd
        subst hd
        rw [runcmd_ok_addr args addr d2 hrun]
  · intro h
    simp [selectAddr, h]
  · intro h1 h
    simp [selectAddr, h1, h]
  · intro h1 h2 h
    simp [selectAddr, h1, h2, h]
  · intro h1 h2 h3 h
    simp [selectAddr, h1, h2, h3, h]
  · intro h1 h2 h3 h4 h
    simp [selectAddr, h1, h2, h3, h4, h]

/-- C4 counterexample: with zero selector flags set and a valid command,
the process opens the port, dispatches nothing, and exits by returning
normally from `main` (process status 0) — not a usage error with non-zero
exit status. -/
theorem C4_counterexample :
    cuddlespeakMain ⟨false, false, false, false, false, false⟩ ["cuddlespeak", "ping"] =
      ⟨.returned, true, true, none⟩ := by
  decide

/-- C4 witness: the priority statement at a concrete invocation with the
purr selector. -/
theorem C4_witness :
    selectAddr ⟨false, false, true, false, false, false⟩ = some .purr :=
  (C4_selector_priority ⟨false, false, true, false, false, false⟩ ["cuddlespeak", "ping"]
    (by decide) rfl).2.2.2.1 rfl rfl

/-- C10: an invocation with fewer than 2 positional arguments exits with
status 1 through `fatalUsage` before the `-help` flag is consulted (and
before the port is opened); the `-help` path that exits with status 0 is
reachable only when at least 2 positional arguments are present and `-help`
is set. -/
theorem C10_usage_before_help (fl : Flags) (args : List String) :
    (args.length < 2 → cuddlespeakMain fl args = ⟨.exited 1, false, false, none⟩) ∧
      ((cuddlespeakMain fl args).exit = .exited 0 →
        2 ≤ args.length ∧ fl.help = true) := by
  constructor
  · intro h
    simp [cuddlespeakMain, h]
  · intro h
    by_cases hn : args.length < 2
    · simp [cuddlespeakMain, hn] at h
    · by_cases hh : fl.help = true
      · exact ⟨Nat.not_lt.mp hn, hh⟩
      · exfalso
        rcases hsel : selectAddr fl with _ | addr
        · simp [cuddlespeakMain, hn, hh, hsel] at h
        · rcases hrun : runcmd args addr with _ | _ | d
          · simp [cuddlespeakMain, hn, hh, hsel, hrun] at h
          · simp [cuddlespeakMain, hn, hh, hsel, hrun] at h
          · simp [cuddlespeakMain, hn, hh, hsel, hrun] at h

/-- C10 witness: with -help set but only one positional argument, the
process still exits with status 1 printing usage. -/
theorem C10_witness :
    cuddlespeakMain ⟨true, false, false, false, false, false⟩ ["cuddlespeak"] =
      ⟨.exited 1, false, false, none⟩ :=
  (C10_usage_before_help ⟨true, false, false, false, false, false⟩ ["cuddlespeak"]).1
    (by decide)
